import Mathlib

set_option maxHeartbeats 1000000

/-!
Shallow embedding of the Invoisio invoice-payment Soroban contract
(`src/soroban/contracts/invoice-payment/src/{lib.rs, storage.rs}`).

Modelling conventions:
- Soroban `Address` and `String` are modelled as Lean `String`s; `len() == 0`
  becomes `String.length = 0` and the `==` comparison against the literal
  `"XLM"` becomes string equality.
- The contract's storage (instance-scope admin slot and payment counter,
  persistent payment records) is a Lean structure `Env`; TTL extension calls
  (`extend_ttl`) never change a stored value, so they have no effect on the
  modelled state and are omitted.
- Per-invocation host facilities — the set of identities that have
  cryptographically authorized the call (consulted by `require_auth`) and the
  ledger clock (`env.ledger().timestamp()`) — are a separate `Ctx` record.
- A `require_auth` failure and an arithmetic-overflow panic are host traps
  that abort the invocation; the host rolls back every storage write of the
  aborted invocation, so those outcomes are modelled as error results paired
  with the *unchanged* pre-call environment. The `u32` addition `count + 1`
  in `bump_count` is modelled as trapping when it would exceed the `u32`
  range (Soroban contract builds enable overflow checks, and a panic aborts
  the invocation).
- Fallible entry points return `Except err Unit × Env`: the result plus the
  environment as observable after the call (unchanged on every failure).
-/

deriving instance DecidableEq for Except

namespace Invoisio

/-- Account identifiers (Soroban `Address` values), modelled as strings. -/
abbrev Address := String

/-- Typed contract error codes. Modelled from the spec: `errors.rs` is not
among the sources; the spec's closed error taxonomy (§7) lists exactly these
seven variants, each returned by name in `lib.rs` / `storage.rs`. -/
inductive ContractError where
  | AlreadyInitialized
  | NotInitialized
  | InvalidInvoiceId
  | InvalidAsset
  | InvalidAmount
  | PaymentAlreadyRecorded
  | PaymentNotFound
  deriving DecidableEq, Repr

/-- Outcome of a contract invocation that can also be aborted by the host:
either a typed `ContractError`, or a host trap — a failed `require_auth`
check for the named identity, or an arithmetic overflow panic. -/
inductive CallError where
  | Contract (e : ContractError)
  | Unauthorized (who : Address)
  | ArithmeticOverflow
  deriving DecidableEq, Repr

/-- Asset enum from `storage.rs`: native XLM, or a Stellar-issued token
`Token(code, issuer)`. -/
inductive Asset where
  | Native
  | Token (code : String) (issuer : String)
  deriving DecidableEq, Repr

/-- On-chain snapshot of a single invoice payment (`storage.rs`).
`amount` is an `i128` (modelled as `Int`), `timestamp` a `u64` (modelled
as `Nat`). -/
structure PaymentRecord where
  invoice_id : String
  payer : Address
  asset : Asset
  amount : Int
  timestamp : Nat
  deriving DecidableEq, Repr

/-- Modelled from the spec: `events.rs` is not among the sources. Per §6,
every successful `record_payment` emits "a notification tagged with a fixed
topic identifying it as a 'payment recorded' event, carrying the complete
`PaymentRecord` as its payload". -/
structure Event where
  topic : String
  record : PaymentRecord
  deriving DecidableEq, Repr

/-- The fixed topic tagging every payment-recorded event. -/
def paymentRecordedTopic : String := "payment_recorded"

/-- Modelled storage state of one contract instance: the instance-scope
admin slot and payment counter (each `None` until first written), the
persistent payment records keyed by invoice id (later writes shadow earlier
ones, matching unconditional `set`), and the log of emitted events. -/
structure Env where
  admin : Option Address
  paymentCount : Option Nat
  payments : List (String × PaymentRecord)
  events : List Event
  deriving DecidableEq, Repr

/-- Per-invocation host context: identities that cryptographically authorized
this call, and the ledger clock reading. -/
structure Ctx where
  auths : List Address
  timestamp : Nat
  deriving DecidableEq, Repr

/-- The `u32` range bound: stored counter values live in `[0, u32Bound)`. -/
def u32Bound : Nat := 2 ^ 32

/-- Association-list lookup for the persistent `Payment(invoice_id)` keys. -/
def lookupPayment : List (String × PaymentRecord) → String → Option PaymentRecord
  | [], _ => none
  | (k, r) :: ps, i => if k = i then some r else lookupPayment ps i

namespace Storage

/-- `storage.rs::has_admin`: `true` iff the admin slot is occupied. -/
def has_admin (e : Env) : Bool :=
  e.admin.isSome

/-- `storage.rs::get_admin`: the admin address, or `NotInitialized`. -/
def get_admin (e : Env) : Except ContractError Address :=
  match e.admin with
  | some a => .ok a
  | none => .error .NotInitialized

/-- `storage.rs::set_admin`: unconditional overwrite of the admin slot
(the TTL extension does not change modelled state). -/
def set_admin (e : Env) (admin : Address) : Env :=
  { e with admin := some admin }

/-- `storage.rs::has_payment`: `true` iff a record exists for `invoice_id`. -/
def has_payment (e : Env) (invoice_id : String) : Bool :=
  (lookupPayment e.payments invoice_id).isSome

/-- `storage.rs::get_payment`: stored record or `PaymentNotFound` (the TTL
extension on a hit does not change modelled state). -/
def get_payment (e : Env) (invoice_id : String) : Except ContractError PaymentRecord :=
  match lookupPayment e.payments invoice_id with
  | some r => .ok r
  | none => .error .PaymentNotFound

/-- `storage.rs::set_payment`: store a record under its `invoice_id` key. -/
def set_payment (e : Env) (record : PaymentRecord) : Env :=
  { e with payments := (record.invoice_id, record) :: e.payments }

/-- `storage.rs::get_count`: the stored counter, defaulting to `0`. -/
def get_count (e : Env) : Nat :=
  e.paymentCount.getD 0

/-- `storage.rs::bump_count`: store `count + 1`. The addition is `u32`
arithmetic; when `count + 1` would leave the `u32` range the build's
overflow check panics and the host aborts the invocation, modelled as
`none`. -/
def bump_count (e : Env) : Option Env :=
  let count := get_count e
  if count + 1 < u32Bound then
    some { e with paymentCount := some (count + 1) }
  else
    none

end Storage

namespace Events

/-- Modelled from the spec: `events.rs::emit_payment_recorded` is not among
the sources. Per §6 the helper appends to the externally observable event
log one notification tagged with the fixed payment-recorded topic and
carrying the complete `PaymentRecord` as payload. -/
def emit_payment_recorded (e : Env) (record : PaymentRecord) : Env :=
  { e with events := e.events ++ [{ topic := paymentRecordedTopic, record := record }] }

end Events

namespace Contract

/-- `lib.rs::initialize`: reject if an admin exists, otherwise store the
admin and explicitly store the counter as `0`. The entry point receives the
host context but never consults it (no `require_auth` in the source). -/
def initializeOp (_ctx : Ctx) (e : Env) (admin : Address) :
    Except ContractError Unit × Env :=
  if Storage.has_admin e then
    (.error .AlreadyInitialized, e)
  else
    let e1 := Storage.set_admin e admin
    (.ok (), { e1 with paymentCount := some 0 })

/-- `lib.rs::record_payment`: the guarded pipeline. Guards in source order:
admin resolution (`NotInitialized`), admin authorization (host trap),
non-empty `invoice_id`, non-empty `asset_code`, asset-shape validation,
positive amount, idempotency; then store the record, bump the counter and
emit the event. Every failing path leaves the environment unchanged. -/
def record_payment (ctx : Ctx) (e : Env) (invoice_id : String) (payer : Address)
    (asset_code : String) (asset_issuer : String) (amount : Int) :
    Except CallError Unit × Env :=
  match e.admin with
  | none => (.error (.Contract .NotInitialized), e)
  | some admin =>
    if !(ctx.auths.contains admin) then
      (.error (.Unauthorized admin), e)
    else if invoice_id.length = 0 then
      (.error (.Contract .InvalidInvoiceId), e)
    else if asset_code.length = 0 then
      (.error (.Contract .InvalidAsset), e)
    else
      let is_xlm : Bool := asset_code == "XLM"
      let issuer_empty : Bool := asset_issuer.length == 0
      if is_xlm && !issuer_empty then
        (.error (.Contract .InvalidAsset), e)
      else if !is_xlm && issuer_empty then
        (.error (.Contract .InvalidAsset), e)
      else if amount ≤ 0 then
        (.error (.Contract .InvalidAmount), e)
      else if Storage.has_payment e invoice_id then
        (.error (.Contract .PaymentAlreadyRecorded), e)
      else
        let asset := if is_xlm then Asset.Native else Asset.Token asset_code asset_issuer
        let record : PaymentRecord :=
          { invoice_id := invoice_id, payer := payer, asset := asset,
            amount := amount, timestamp := ctx.timestamp }
        let e1 := Storage.set_payment e record
        match Storage.bump_count e1 with
        | none => (.error .ArithmeticOverflow, e)
        | some e2 => (.ok (), Events.emit_payment_recorded e2 record)

/-- `lib.rs::get_payment`: delegate to storage. -/
def get_payment (e : Env) (invoice_id : String) : Except ContractError PaymentRecord :=
  Storage.get_payment e invoice_id

/-- `lib.rs::has_payment`: delegate to storage. -/
def has_payment (e : Env) (invoice_id : String) : Bool :=
  Storage.has_payment e invoice_id

/-- `lib.rs::payment_count`: delegate to storage (`0` if never written). -/
def payment_count (e : Env) : Nat :=
  Storage.get_count e

/-- `lib.rs::admin`: delegate to storage. -/
def admin (e : Env) : Except ContractError Address :=
  Storage.get_admin e

/-- `lib.rs::set_admin`: resolve the current admin (`NotInitialized` if
none), require authorization from the current admin and from the new admin
(each a host trap when missing), then overwrite the admin slot. -/
def set_admin (ctx : Ctx) (e : Env) (new_admin : Address) :
    Except CallError Unit × Env :=
  match e.admin with
  | none => (.error (.Contract .NotInitialized), e)
  | some current =>
    if !(ctx.auths.contains current) then
      (.error (.Unauthorized current), e)
    else if !(ctx.auths.contains new_admin) then
      (.error (.Unauthorized new_admin), e)
    else
      (.ok (), Storage.set_admin e new_admin)

end Contract

/-- One invocation in an execution trace: each call carries its own host
context (authorizing identities, clock). -/
inductive Op where
  | opRecord (ctx : Ctx) (invoice_id : String) (payer : Address)
      (code : String) (issuer : String) (amount : Int)
  | opGet (invoice_id : String)
  | opHas (invoice_id : String)
  | opSetAdmin (ctx : Ctx) (new_admin : Address)
  deriving DecidableEq, Repr

/-- The environment observable after one invocation (reads leave it
unchanged; failed writes are rolled back by construction). -/
def stepEnv (e : Env) : Op → Env
  | .opRecord ctx i p c iss amt => (Contract.record_payment ctx e i p c iss amt).2
  | .opGet _ => e
  | .opHas _ => e
  | .opSetAdmin ctx a => (Contract.set_admin ctx e a).2

/-- Whether an invocation is a successful `record_payment` call. -/
def isRecordSuccess (e : Env) : Op → Bool
  | .opRecord ctx i p c iss amt =>
    match (Contract.record_payment ctx e i p c iss amt).1 with
    | .ok _ => true
    | .error _ => false
  | _ => false

/-- Run a sequence of invocations. -/
def runOps (e : Env) : List Op → Env
  | [] => e
  | o :: os => runOps (stepEnv e o) os

/-- Number of successful `record_payment` calls along a sequence. -/
def recSuccesses (e : Env) : List Op → Nat
  | [] => 0
  | o :: os => (if isRecordSuccess e o then 1 else 0) + recSuccesses (stepEnv e o) os

/-- Concrete test fixtures used by witnesses and counterexamples. -/
def admin0 : Address := "GADMIN"

def payer0 : Address := "GPAYER"

def ctx0 : Ctx := { auths := [admin0], timestamp := 1700000000 }

def env0 : Env := { admin := none, paymentCount := none, payments := [], events := [] }

/-- The environment right after a successful `initialize(admin0)`. -/
def envInit : Env := (Contract.initializeOp ctx0 env0 admin0).2

/-- `envInit` after one successful `record_payment` for `"inv1"`. -/
def envRec1 : Env :=
  (Contract.record_payment ctx0 envInit "inv1" payer0 "XLM" "" 100).2

/-- A host context in which nobody has authorized the call. -/
def ctxNoAuth : Ctx := { auths := [], timestamp := 0 }

/-- A host context in which both the current admin and the incoming admin
`"GNEW"` have authorized the call. -/
def ctxBoth : Ctx := { auths := [admin0, "GNEW"], timestamp := 1700000001 }

/-- A small concrete trace: one successful recording, a failed duplicate, a
failed bad-asset call, and a read. -/
def opsW : List Op :=
  [Op.opRecord ctx0 "inv1" payer0 "XLM" "" 100,
   Op.opRecord ctx0 "inv1" payer0 "XLM" "" 100,
   Op.opRecord ctx0 "inv2" payer0 "USDC" "" 5,
   Op.opGet "inv1"]

/-- An initialized environment whose stored counter sits at the top of the
`u32` range (the state reached after `2^32 - 1` successful recordings,
with the record list elided — the counter alone decides the boundary). -/
def envCountMax : Env := { envInit with paymentCount := some (u32Bound - 1) }

/-- Asset classification, as performed inline by `record_payment` step 5
(`lib.rs` lines 143, 166-170): native iff the code equals `"XLM"`. Used to
state theorems about the stored asset. -/
def classifyAsset (code issuer : String) : Asset :=
  if code == "XLM" then Asset.Native else Asset.Token code issuer

/-- The `PaymentRecord` that a successful `record_payment` call builds from
its arguments and the invocation clock (`lib.rs` lines 173-179). -/
def builtRecord (ctx : Ctx) (invoice_id : String) (payer : Address)
    (code issuer : String) (amount : Int) : PaymentRecord :=
  { invoice_id := invoice_id, payer := payer, asset := classifyAsset code issuer,
    amount := amount, timestamp := ctx.timestamp }

/-- The environment produced by a successful `record_payment` call: the new
record stored under its invoice id, the counter incremented, and one
payment-recorded event appended. Proven equal to the pipeline's result in
`record_payment_cases`. -/
def recordSuccessEnv (ctx : Ctx) (e : Env) (invoice_id : String) (payer : Address)
    (code issuer : String) (amount : Int) : Env :=
  { e with
    payments := (invoice_id, builtRecord ctx invoice_id payer code issuer amount) :: e.payments,
    paymentCount := some (Storage.get_count e + 1),
    events := e.events ++
      [{ topic := paymentRecordedTopic,
         record := builtRecord ctx invoice_id payer code issuer amount }] }

end Invoisio

namespace Invoisio

/-- Exhaustive behavioral description of `record_payment`: exactly one guard
branch applies, each failing branch returns its error with the environment
unchanged, and the success branch returns `recordSuccessEnv`. -/
theorem record_payment_cases (ctx : Ctx) (e : Env) (i : String) (p : Address)
    (c iss : String) (amt : Int) :
    (e.admin = none ∧
      Contract.record_payment ctx e i p c iss amt = (.error (.Contract .NotInitialized), e))
  ∨ (∃ a, e.admin = some a ∧ a ∉ ctx.auths ∧
      Contract.record_payment ctx e i p c iss amt = (.error (.Unauthorized a), e))
  ∨ (∃ a, e.admin = some a ∧ a ∈ ctx.auths ∧ i.length = 0 ∧
      Contract.record_payment ctx e i p c iss amt = (.error (.Contract .InvalidInvoiceId), e))
  ∨ (∃ a, e.admin = some a ∧ a ∈ ctx.auths ∧ i.length ≠ 0 ∧
      c.length = 0 ∧
      Contract.record_payment ctx e i p c iss amt = (.error (.Contract .InvalidAsset), e))
  ∨ (∃ a, e.admin = some a ∧ a ∈ ctx.auths ∧ i.length ≠ 0 ∧
      c.length ≠ 0 ∧ ¬(c = "XLM" ↔ iss.length = 0) ∧
      Contract.record_payment ctx e i p c iss amt = (.error (.Contract .InvalidAsset), e))
  ∨ (∃ a, e.admin = some a ∧ a ∈ ctx.auths ∧ i.length ≠ 0 ∧
      c.length ≠ 0 ∧ (c = "XLM" ↔ iss.length = 0) ∧ amt ≤ 0 ∧
      Contract.record_payment ctx e i p c iss amt = (.error (.Contract .InvalidAmount), e))
  ∨ (∃ a, e.admin = some a ∧ a ∈ ctx.auths ∧ i.length ≠ 0 ∧
      c.length ≠ 0 ∧ (c = "XLM" ↔ iss.length = 0) ∧ 0 < amt ∧
      Storage.has_payment e i = true ∧
      Contract.record_payment ctx e i p c iss amt =
        (.error (.Contract .PaymentAlreadyRecorded), e))
  ∨ (∃ a, e.admin = some a ∧ a ∈ ctx.auths ∧ i.length ≠ 0 ∧
      c.length ≠ 0 ∧ (c = "XLM" ↔ iss.length = 0) ∧ 0 < amt ∧
      Storage.has_payment e i = false ∧ u32Bound ≤ Storage.get_count e + 1 ∧
      Contract.record_payment ctx e i p c iss amt = (.error .ArithmeticOverflow, e))
  ∨ (∃ a, e.admin = some a ∧ a ∈ ctx.auths ∧ i.length ≠ 0 ∧
      c.length ≠ 0 ∧ (c = "XLM" ↔ iss.length = 0) ∧ 0 < amt ∧
      Storage.has_payment e i = false ∧ Storage.get_count e + 1 < u32Bound ∧
      Contract.record_payment ctx e i p c iss amt =
        (.ok (), recordSuccessEnv ctx e i p c iss amt)) := by
  unfold Contract.record_payment
  cases hA : e.admin with
  | none => exact Or.inl ⟨rfl, rfl⟩
  | some a =>
    by_cases hauth : a ∈ ctx.auths
    case neg =>
      refine Or.inr (Or.inl ⟨a, rfl, hauth, ?_⟩)
      simp [hauth]
    case pos =>
    by_cases hi : i.length = 0
    case pos =>
      refine Or.inr (Or.inr (Or.inl ⟨a, rfl, hauth, hi, ?_⟩))
      simp [hauth, hi]
    case neg =>
    by_cases hc : c.length = 0
    case pos =>
      refine Or.inr (Or.inr (Or.inr (Or.inl ⟨a, rfl, hauth, hi, hc, ?_⟩)))
      simp [hauth, hi, hc]
    case neg =>
    by_cases hshape : c = "XLM" ↔ iss.length = 0
    case neg =>
      refine Or.inr (Or.inr (Or.inr (Or.inr (Or.inl
        ⟨a, rfl, hauth, hi, hc, hshape, ?_⟩))))
      by_cases hx : c = "XLM" <;> by_cases hie : iss.length = 0 <;>
        simp [hauth, hi, hc, hx, hie] <;> tauto
    case pos =>
    have hbools : ((c == "XLM") = true ∧ (iss.length == 0) = true) ∨
        ((c == "XLM") = false ∧ (iss.length == 0) = false) := by
      rcases Decidable.em (c = "XLM") with hx | hx
      · exact Or.inl ⟨by simp [hx], by simp [hshape.mp hx]⟩
      · have hie : iss.length ≠ 0 := fun h => hx (hshape.mpr h)
        exact Or.inr ⟨by simp [hx], by simp [hie]⟩
    by_cases hamt : amt ≤ 0
    case pos =>
      refine Or.inr (Or.inr (Or.inr (Or.inr (Or.inr (Or.inl
        ⟨a, rfl, hauth, hi, hc, hshape, hamt, ?_⟩)))))
      rcases hbools with ⟨hbx, hbie⟩ | ⟨hbx, hbie⟩ <;>
        simp [hauth, hi, hc, hbx, hbie, hamt]
    case neg =>
    by_cases hhp : Storage.has_payment e i = true
    case pos =>
      refine Or.inr (Or.inr (Or.inr (Or.inr (Or.inr (Or.inr (Or.inl
        ⟨a, rfl, hauth, hi, hc, hshape, by omega, hhp, ?_⟩))))))
      rcases hbools with ⟨hbx, hbie⟩ | ⟨hbx, hbie⟩ <;>
        simp [hauth, hi, hc, hbx, hbie, hamt, hhp]
    case neg =>
    have hcnteq : Storage.get_count e = e.paymentCount.getD 0 := rfl
    by_cases hcnt : Storage.get_count e + 1 < u32Bound
    case pos =>
      have hcnt' : e.paymentCount.getD 0 + 1 < u32Bound := hcnteq ▸ hcnt
      refine Or.inr (Or.inr (Or.inr (Or.inr (Or.inr (Or.inr (Or.inr (Or.inr
        ⟨a, rfl, hauth, hi, hc, hshape, by omega, by simpa using hhp, hcnt, ?_⟩)))))))
      rcases hbools with ⟨hbx, hbie⟩ | ⟨hbx, hbie⟩ <;>
        simp [hauth, hi, hc, hbx, hbie, hamt, hhp, Storage.bump_count,
          Storage.get_count, hcnt', Events.emit_payment_recorded,
          Storage.set_payment, recordSuccessEnv, builtRecord, classifyAsset]
    case neg =>
      have hcnt' : ¬(e.paymentCount.getD 0 + 1 < u32Bound) := hcnteq ▸ hcnt
      refine Or.inr (Or.inr (Or.inr (Or.inr (Or.inr (Or.inr (Or.inr (Or.inl
        ⟨a, rfl, hauth, hi, hc, hshape, by omega, by simpa using hhp, by omega, ?_⟩)))))))
      rcases hbools with ⟨hbx, hbie⟩ | ⟨hbx, hbie⟩ <;>
        simp [hauth, hi, hc, hbx, hbie, hamt, hhp, Storage.bump_count,
          Storage.get_count, hcnt', Storage.set_payment]

/-- Exhaustive behavioral description of the `set_admin` entry point. -/
theorem set_admin_cases (ctx : Ctx) (e : Env) (na : Address) :
    (e.admin = none ∧
      Contract.set_admin ctx e na = (.error (.Contract .NotInitialized), e))
  ∨ (∃ cur, e.admin = some cur ∧ cur ∉ ctx.auths ∧
      Contract.set_admin ctx e na = (.error (.Unauthorized cur), e))
  ∨ (∃ cur, e.admin = some cur ∧ cur ∈ ctx.auths ∧ na ∉ ctx.auths ∧
      Contract.set_admin ctx e na = (.error (.Unauthorized na), e))
  ∨ (∃ cur, e.admin = some cur ∧ cur ∈ ctx.auths ∧ na ∈ ctx.auths ∧
      Contract.set_admin ctx e na = (.ok (), { e with admin := some na })) := by
  unfold Contract.set_admin
  cases hA : e.admin with
  | none => exact Or.inl ⟨rfl, rfl⟩
  | some cur =>
    by_cases hcur : cur ∈ ctx.auths
    case neg =>
      refine Or.inr (Or.inl ⟨cur, rfl, hcur, ?_⟩)
      simp [hcur]
    case pos =>
    by_cases hna : na ∈ ctx.auths
    case neg =>
      refine Or.inr (Or.inr (Or.inl ⟨cur, rfl, hcur, hna, ?_⟩))
      simp [hcur, hna]
    case pos =>
      refine Or.inr (Or.inr (Or.inr ⟨cur, rfl, hcur, hna, ?_⟩))
      simp [hcur, hna, Storage.set_admin]

/-- Exhaustive behavioral description of the `initialize` entry point. -/
theorem initializeOp_cases (ctx : Ctx) (e : Env) (a : Address) :
    ((∃ b, e.admin = some b) ∧
      Contract.initializeOp ctx e a = (.error .AlreadyInitialized, e))
  ∨ (e.admin = none ∧
      Contract.initializeOp ctx e a =
        (.ok (), { e with admin := some a, paymentCount := some 0 })) := by
  unfold Contract.initializeOp
  cases hA : e.admin with
  | none => exact Or.inr ⟨rfl, by simp [Storage.has_admin, hA, Storage.set_admin]⟩
  | some b => exact Or.inl ⟨⟨b, rfl⟩, by simp [Storage.has_admin, hA]⟩

end Invoisio


namespace Invoisio

/-- `set_admin` never touches the payment counter. -/
theorem set_admin_paymentCount (ctx : Ctx) (e : Env) (na : Address) :
    ((Contract.set_admin ctx e na).2).paymentCount = e.paymentCount := by
  rcases set_admin_cases ctx e na with ⟨_, hE⟩ | ⟨cur, _, _, hE⟩ | ⟨cur, _, _, _, hE⟩ |
    ⟨cur, _, _, _, hE⟩ <;> rw [hE]

/-- One step of a trace changes the counter by one exactly on a successful
`record_payment`, and otherwise not at all. -/
theorem get_count_stepEnv (e : Env) (o : Op) :
    Storage.get_count (stepEnv e o) =
      Storage.get_count e + (if isRecordSuccess e o then 1 else 0) := by
  cases o with
  | opRecord ctx i p c iss amt =>
    rcases record_payment_cases ctx e i p c iss amt with ⟨_, hE⟩ | ⟨a, _, _, hE⟩ |
      ⟨a, _, _, _, hE⟩ | ⟨a, _, _, _, _, hE⟩ | ⟨a, _, _, _, _, _, hE⟩ |
      ⟨a, _, _, _, _, _, _, hE⟩ | ⟨a, _, _, _, _, _, _, _, hE⟩ |
      ⟨a, _, _, _, _, _, _, _, _, hE⟩ | ⟨a, _, _, _, _, _, _, _, _, hE⟩ <;>
      simp [stepEnv, isRecordSuccess, hE, recordSuccessEnv, Storage.get_count]
  | opGet i => simp [stepEnv, isRecordSuccess]
  | opHas i => simp [stepEnv, isRecordSuccess]
  | opSetAdmin ctx na =>
    simp [stepEnv, isRecordSuccess, Storage.get_count, set_admin_paymentCount]

/-- Counter accounting over a whole trace. -/
theorem get_count_runOps (ops : List Op) : ∀ e : Env,
    Storage.get_count (runOps e ops) = Storage.get_count e + recSuccesses e ops := by
  induction ops with
  | nil => intro e; simp [runOps, recSuccesses]
  | cons o os ih =>
    intro e
    rw [show runOps e (o :: os) = runOps (stepEnv e o) os from rfl,
      show recSuccesses e (o :: os) =
        (if isRecordSuccess e o then 1 else 0) + recSuccesses (stepEnv e o) os from rfl,
      ih (stepEnv e o), get_count_stepEnv]
    omega

/-- C2: after a successful `initialize`, for any sequence of contract calls,
`payment_count` equals exactly the number of successful `record_payment`
calls in the sequence — failed calls contribute nothing, and the count is
zero while no `record_payment` has succeeded. -/
theorem payment_count_equals_successes (ctx : Ctx) (e : Env) (a : Address) (ops : List Op)
    (h : (Contract.initializeOp ctx e a).1 = .ok ()) :
    Contract.payment_count (runOps (Contract.initializeOp ctx e a).2 ops) =
      recSuccesses (Contract.initializeOp ctx e a).2 ops := by
  rcases initializeOp_cases ctx e a with ⟨⟨b, _⟩, hE⟩ | ⟨_, hE⟩
  · rw [hE] at h; cases h
  · rw [hE]
    show Storage.get_count _ = _
    rw [get_count_runOps]
    simp [Storage.get_count]

/-- Witness trace for C2: one successful recording, one failed duplicate,
one failed bad-asset call and a read; the counter ends at exactly 1. -/
theorem payment_count_equals_successes_witness :
    Contract.payment_count (runOps (Contract.initializeOp ctx0 env0 admin0).2 opsW) =
      recSuccesses (Contract.initializeOp ctx0 env0 admin0).2 opsW ∧
    Contract.payment_count (runOps (Contract.initializeOp ctx0 env0 admin0).2 opsW) = 1 :=
  ⟨payment_count_equals_successes ctx0 env0 admin0 opsW (by decide), by decide⟩

/-- C6: `initialize` fails with `AlreadyInitialized` exactly when an admin is
already stored (leaving the state unchanged), and on success stores the
admin and explicitly stores the counter as zero, so `admin()` returns the
new admin and `payment_count()` returns 0. -/
theorem initialize_stores_admin_and_zero (ctx : Ctx) (e : Env) (a : Address) :
    ((Contract.initializeOp ctx e a).1 = .error .AlreadyInitialized ↔
      Storage.has_admin e = true) ∧
    (Storage.has_admin e = true → (Contract.initializeOp ctx e a).2 = e) ∧
    (Storage.has_admin e = false →
      Contract.initializeOp ctx e a =
        (.ok (), { e with admin := some a, paymentCount := some 0 }) ∧
      Contract.admin (Contract.initializeOp ctx e a).2 = .ok a ∧
      Contract.payment_count (Contract.initializeOp ctx e a).2 = 0 ∧
      ((Contract.initializeOp ctx e a).2).paymentCount = some 0) := by
  rcases initializeOp_cases ctx e a with ⟨⟨b, hB⟩, hE⟩ | ⟨hN, hE⟩
  · refine ⟨⟨fun _ => ?_, fun _ => ?_⟩, fun _ => by rw [hE], fun hcontra => ?_⟩
    · simp [Storage.has_admin, hB]
    · rw [hE]
    · simp [Storage.has_admin, hB] at hcontra
  · refine ⟨⟨fun hcontra => ?_, fun hcontra => ?_⟩, fun hcontra => ?_, fun _ => ?_⟩
    · rw [hE] at hcontra; cases hcontra
    · simp [Storage.has_admin, hN] at hcontra
    · simp [Storage.has_admin, hN] at hcontra
    · refine ⟨hE, ?_, ?_, ?_⟩ <;>
        simp [hE, Contract.admin, Storage.get_admin, Contract.payment_count,
          Storage.get_count]

/-- Witness for C6 at a concrete uninitialized environment. -/
theorem initialize_stores_admin_and_zero_witness :
    Contract.initializeOp ctx0 env0 admin0 =
      (.ok (), { env0 with admin := some admin0, paymentCount := some 0 }) ∧
    Contract.admin (Contract.initializeOp ctx0 env0 admin0).2 = .ok admin0 ∧
    Contract.payment_count (Contract.initializeOp ctx0 env0 admin0).2 = 0 ∧
    ((Contract.initializeOp ctx0 env0 admin0).2).paymentCount = some 0 :=
  (initialize_stores_admin_and_zero ctx0 env0 admin0).2.2 (by decide)

/-- C10: `initialize` performs no authorization check — its result is the
same under any two host authorization contexts, and on an uninitialized
instance it succeeds for every caller context and admin argument. -/
theorem initialize_ignores_auth_context (ctx1 ctx2 : Ctx) (e : Env) (a : Address) :
    Contract.initializeOp ctx1 e a = Contract.initializeOp ctx2 e a ∧
    (e.admin = none → ∀ ctx : Ctx,
      Contract.initializeOp ctx e a =
        (.ok (), { e with admin := some a, paymentCount := some 0 })) := by
  refine ⟨rfl, fun hN ctx => ?_⟩
  rcases initializeOp_cases ctx e a with ⟨⟨b, hB⟩, _⟩ | ⟨_, hE⟩
  · rw [hN] at hB; cases hB
  · exact hE

/-- Witness for C10: an empty authorization context still initializes. -/
theorem initialize_ignores_auth_context_witness :
    Contract.initializeOp ctx0 env0 admin0 = Contract.initializeOp ctxNoAuth env0 admin0 ∧
    Contract.initializeOp ctxNoAuth env0 admin0 =
      (.ok (), { env0 with admin := some admin0, paymentCount := some 0 }) :=
  ⟨(initialize_ignores_auth_context ctx0 ctxNoAuth env0 admin0).1,
   (initialize_ignores_auth_context ctx0 ctxNoAuth env0 admin0).2 rfl ctxNoAuth⟩

end Invoisio

namespace Invoisio

/-- After a successful recording, the record for that invoice id is present. -/
theorem has_payment_after_success (ctx : Ctx) (e : Env) (i : String) (p : Address)
    (c iss : String) (amt : Int)
    (h : (Contract.record_payment ctx e i p c iss amt).1 = .ok ()) :
    Storage.has_payment (Contract.record_payment ctx e i p c iss amt).2 i = true ∧
    i.length ≠ 0 ∧
    (Contract.record_payment ctx e i p c iss amt).2 =
      recordSuccessEnv ctx e i p c iss amt := by
  rcases record_payment_cases ctx e i p c iss amt with ⟨_, hE⟩ | ⟨a, _, _, hE⟩ |
    ⟨a, _, _, _, hE⟩ | ⟨a, _, _, _, _, hE⟩ | ⟨a, _, _, _, _, _, hE⟩ |
    ⟨a, _, _, _, _, _, _, hE⟩ | ⟨a, _, _, _, _, _, _, _, hE⟩ |
    ⟨a, _, _, _, _, _, _, _, _, hE⟩ | ⟨a, _, _, hi, _, _, _, _, _, hE⟩ <;>
    rw [hE] at h <;> try cases h
  exact ⟨by
    rw [hE]
    simp [Storage.has_payment, recordSuccessEnv, lookupPayment], hi, by rw [hE]⟩

/-- C1 (amended): after one successful `record_payment(i, ...)`, every
subsequent `record_payment(i, ...)` fails and leaves the environment — in
particular the stored record for `i` and the counter — unchanged; when the
admin has authorized the call and the other arguments pass the input guards
that run before the idempotency check, the error is exactly
`PaymentAlreadyRecorded`. -/
theorem record_payment_idempotent (ctx ctx' : Ctx) (e : Env) (i : String)
    (p p' : Address) (c c' iss iss' : String) (amt amt' : Int)
    (h : (Contract.record_payment ctx e i p c iss amt).1 = .ok ()) :
    (∀ u, (Contract.record_payment ctx' (Contract.record_payment ctx e i p c iss amt).2
        i p' c' iss' amt').1 ≠ .ok u) ∧
    (Contract.record_payment ctx' (Contract.record_payment ctx e i p c iss amt).2
        i p' c' iss' amt').2 = (Contract.record_payment ctx e i p c iss amt).2 ∧
    (∀ a, ((Contract.record_payment ctx e i p c iss amt).2).admin = some a →
      a ∈ ctx'.auths → c'.length ≠ 0 → (c' = "XLM" ↔ iss'.length = 0) → 0 < amt' →
      (Contract.record_payment ctx' (Contract.record_payment ctx e i p c iss amt).2
          i p' c' iss' amt').1 = .error (.Contract .PaymentAlreadyRecorded)) := by
  obtain ⟨hdup, hi, -⟩ := has_payment_after_success ctx e i p c iss amt h
  rcases record_payment_cases ctx' (Contract.record_payment ctx e i p c iss amt).2
      i p' c' iss' amt' with ⟨hA, hE⟩ | ⟨a, hA, hna, hE⟩ | ⟨a, hA, hin, hi0, hE⟩ |
    ⟨a, hA, hin, _, hc0, hE⟩ | ⟨a, hA, hin, _, _, hsh, hE⟩ |
    ⟨a, hA, hin, _, _, hsh, ham, hE⟩ | ⟨a, hA, hin, _, _, hsh, ham, hhp, hE⟩ |
    ⟨a, hA, hin, _, _, hsh, ham, hhp, hcnt, hE⟩ |
    ⟨a, hA, hin, _, _, hsh, ham, hhp, hcnt, hE⟩
  · exact ⟨by simp [hE], by rw [hE], fun a' ha' => by rw [hA] at ha'; cases ha'⟩
  · exact ⟨by simp [hE], by rw [hE], fun a' ha' hmem => by
      rw [hA] at ha'; cases ha'; exact absurd hmem hna⟩
  · exact ⟨by simp [hE], by rw [hE], fun a' ha' hmem => absurd hi0 hi⟩
  · exact ⟨by simp [hE], by rw [hE], fun a' ha' hmem hc' => absurd hc0 hc'⟩
  · exact ⟨by simp [hE], by rw [hE], fun a' ha' hmem hc' hsh' => absurd hsh' hsh⟩
  · exact ⟨by simp [hE], by rw [hE], fun a' ha' hmem hc' hsh' ham' => by omega⟩
  · exact ⟨by simp [hE], by rw [hE], fun a' ha' hmem hc' hsh' ham' => by simp [hE]⟩
  · exact absurd hdup (by simp [hhp])
  · exact absurd hdup (by simp [hhp])

/-- Witness for C1: a duplicate recording with otherwise-valid arguments is
rejected with `PaymentAlreadyRecorded`. -/
theorem record_payment_idempotent_witness :
    (Contract.record_payment ctx0 (Contract.record_payment ctx0 envInit "inv1" payer0
        "XLM" "" 100).2 "inv1" payer0 "USDC" "GISS" 7).1 =
      .error (.Contract .PaymentAlreadyRecorded) :=
  (record_payment_idempotent ctx0 ctx0 envInit "inv1" payer0 payer0 "XLM" "USDC" ""
      "GISS" 100 7 (by decide)).2.2 admin0 (by decide) (by decide) (by decide)
    (by decide) (by decide)

/-- Counterexample to C1 as stated: after a successful recording for
`"inv1"`, a duplicate call whose `asset_code` is empty fails with
`InvalidAsset`, not `PaymentAlreadyRecorded` — the error depends on the
other arguments. -/
theorem record_payment_idempotent_cex :
    (Contract.record_payment ctx0 envInit "inv1" payer0 "XLM" "" 100).1 = .ok () ∧
    (Contract.record_payment ctx0 envRec1 "inv1" payer0 "" "" 5).1 =
      .error (.Contract .InvalidAsset) ∧
    (Contract.record_payment ctx0 envRec1 "inv1" payer0 "" "" 5).1 ≠
      .error (.Contract .PaymentAlreadyRecorded) := by
  refine ⟨by decide, by decide, by decide⟩

/-- C4: immediately after a successful `record_payment(i, payer, code,
issuer, amount)`, `get_payment(i)` returns exactly the record built from
those arguments — asset classified from `(code, issuer)`, timestamp taken
from the invocation clock, never from the caller's arguments — and
`has_payment(i)` is true. -/
theorem read_after_write (ctx : Ctx) (e : Env) (i : String) (p : Address)
    (c iss : String) (amt : Int)
    (h : (Contract.record_payment ctx e i p c iss amt).1 = .ok ()) :
    Contract.get_payment (Contract.record_payment ctx e i p c iss amt).2 i =
      .ok { invoice_id := i, payer := p, asset := classifyAsset c iss,
            amount := amt, timestamp := ctx.timestamp } ∧
    Contract.has_payment (Contract.record_payment ctx e i p c iss amt).2 i = true := by
  obtain ⟨hdup, -, hEnv⟩ := has_payment_after_success ctx e i p c iss amt h
  rw [hEnv]
  constructor
  · simp [Contract.get_payment, Storage.get_payment, recordSuccessEnv, lookupPayment,
      builtRecord]
  · rw [show Contract.has_payment (recordSuccessEnv ctx e i p c iss amt) i =
      Storage.has_payment (recordSuccessEnv ctx e i p c iss amt) i from rfl, ← hEnv]
    exact hdup

/-- Witness for C4 at a concrete recording. -/
theorem read_after_write_witness :
    Contract.get_payment (Contract.record_payment ctx0 envInit "inv1" payer0
        "XLM" "" 100).2 "inv1" =
      .ok { invoice_id := "inv1", payer := payer0, asset := classifyAsset "XLM" "",
            amount := 100, timestamp := ctx0.timestamp } ∧
    Contract.has_payment (Contract.record_payment ctx0 envInit "inv1" payer0
        "XLM" "" 100).2 "inv1" = true :=
  read_after_write ctx0 envInit "inv1" payer0 "XLM" "" 100 (by decide)

end Invoisio

namespace Invoisio

/-- C5: `record_payment` evaluates its guards in a fixed order and returns
the error of the first guard that fails — missing admin, then (after the
admin's authorization) empty invoice id, empty asset code, asset-shape
mismatch, non-positive amount, existing record — and no failing call
mutates the environment. -/
theorem record_payment_guard_order (ctx : Ctx) (e : Env) (i : String) (p : Address)
    (c iss : String) (amt : Int) :
    (e.admin = none →
      Contract.record_payment ctx e i p c iss amt =
        (.error (.Contract .NotInitialized), e)) ∧
    (∀ a, e.admin = some a → a ∈ ctx.auths → i.length = 0 →
      Contract.record_payment ctx e i p c iss amt =
        (.error (.Contract .InvalidInvoiceId), e)) ∧
    (∀ a, e.admin = some a → a ∈ ctx.auths → i.length ≠ 0 → c.length = 0 →
      Contract.record_payment ctx e i p c iss amt =
        (.error (.Contract .InvalidAsset), e)) ∧
    (∀ a, e.admin = some a → a ∈ ctx.auths → i.length ≠ 0 → c.length ≠ 0 →
      ¬(c = "XLM" ↔ iss.length = 0) →
      Contract.record_payment ctx e i p c iss amt =
        (.error (.Contract .InvalidAsset), e)) ∧
    (∀ a, e.admin = some a → a ∈ ctx.auths → i.length ≠ 0 → c.length ≠ 0 →
      (c = "XLM" ↔ iss.length = 0) → amt ≤ 0 →
      Contract.record_payment ctx e i p c iss amt =
        (.error (.Contract .InvalidAmount), e)) ∧
    (∀ a, e.admin = some a → a ∈ ctx.auths → i.length ≠ 0 → c.length ≠ 0 →
      (c = "XLM" ↔ iss.length = 0) → 0 < amt → Storage.has_payment e i = true →
      Contract.record_payment ctx e i p c iss amt =
        (.error (.Contract .PaymentAlreadyRecorded), e)) ∧
    (∀ err, (Contract.record_payment ctx e i p c iss amt).1 = .error err →
      (Contract.record_payment ctx e i p c iss amt).2 = e) := by
  rcases record_payment_cases ctx e i p c iss amt with ⟨hA, hE⟩ | ⟨a, hA, hna, hE⟩ |
    ⟨a, hA, hin, hi0, hE⟩ | ⟨a, hA, hin, hi1, hc0, hE⟩ |
    ⟨a, hA, hin, hi1, hc1, hsh, hE⟩ | ⟨a, hA, hin, hi1, hc1, hsh, ham, hE⟩ |
    ⟨a, hA, hin, hi1, hc1, hsh, ham, hhp, hE⟩ |
    ⟨a, hA, hin, hi1, hc1, hsh, ham, hhp, hcnt, hE⟩ |
    ⟨a, hA, hin, hi1, hc1, hsh, ham, hhp, hcnt, hE⟩ <;>
    refine ⟨?_, ?_, ?_, ?_, ?_, ?_, ?_⟩ <;> intros <;> simp_all <;> omega

/-- Witness for C5: with the admin authorized, an input violating several
guards at once (empty invoice id, empty code, zero amount, duplicate id)
receives the earliest guard's error, `InvalidInvoiceId`. -/
theorem record_payment_guard_order_witness :
    Contract.record_payment ctx0 envRec1 "" payer0 "" "" 0 =
      (.error (.Contract .InvalidInvoiceId), envRec1) :=
  (record_payment_guard_order ctx0 envRec1 "" payer0 "" "" 0).2.1 admin0 (by decide)
    (by decide) (by decide)

/-- C3 (amended): when the guards before asset classification pass and the
stored counter is below `2^32 - 1`, exactly one of the four spec outcomes
holds, decided by whether the code equals `"XLM"` and whether the issuer is
empty; at counter `2^32 - 1` the two storing outcomes are replaced by an
aborting overflow trap. -/
theorem record_payment_asset_outcomes (ctx : Ctx) (e : Env) (i : String) (p : Address)
    (c iss : String) (amt : Int) (a : Address)
    (hA : e.admin = some a) (hauth : a ∈ ctx.auths) (hi : i.length ≠ 0)
    (hc : c.length ≠ 0) (hamt : 0 < amt) (hfresh : Storage.has_payment e i = false)
    (hcnt : Storage.get_count e + 1 < u32Bound) :
    (c = "XLM" → iss.length = 0 →
      (Contract.record_payment ctx e i p c iss amt).1 = .ok () ∧
      Storage.get_payment (Contract.record_payment ctx e i p c iss amt).2 i =
        .ok (builtRecord ctx i p c iss amt) ∧
      classifyAsset c iss = Asset.Native) ∧
    (c = "XLM" → iss.length ≠ 0 →
      Contract.record_payment ctx e i p c iss amt =
        (.error (.Contract .InvalidAsset), e)) ∧
    (c ≠ "XLM" → iss.length = 0 →
      Contract.record_payment ctx e i p c iss amt =
        (.error (.Contract .InvalidAsset), e)) ∧
    (c ≠ "XLM" → iss.length ≠ 0 →
      (Contract.record_payment ctx e i p c iss amt).1 = .ok () ∧
      Storage.get_payment (Contract.record_payment ctx e i p c iss amt).2 i =
        .ok (builtRecord ctx i p c iss amt) ∧
      classifyAsset c iss = Asset.Token c iss) := by
  rcases record_payment_cases ctx e i p c iss amt with ⟨hA', hE⟩ | ⟨b, hA', hna, hE⟩ |
    ⟨b, hA', hin, hi0, hE⟩ | ⟨b, hA', hin, hi1, hc0, hE⟩ |
    ⟨b, hA', hin, hi1, hc1, hsh, hE⟩ | ⟨b, hA', hin, hi1, hc1, hsh, ham, hE⟩ |
    ⟨b, hA', hin, hi1, hc1, hsh, ham, hhp, hE⟩ |
    ⟨b, hA', hin, hi1, hc1, hsh, ham, hhp, hcnt', hE⟩ |
    ⟨b, hA', hin, hi1, hc1, hsh, ham, hhp, hcnt', hE⟩
  · rw [hA] at hA'; cases hA'
  · rw [hA] at hA'; cases hA'; exact absurd hauth hna
  · exact absurd hi0 hi
  · exact absurd hc0 hc
  · refine ⟨fun hx hie => absurd (Iff.intro (fun _ => hie) (fun _ => hx)) hsh,
      fun hx hie => hE, fun hx hie => hE, fun hx hie => ?_⟩
    exact absurd (Iff.intro (fun h => absurd h hx) (fun h => absurd h hie)) hsh
  · omega
  · rw [hfresh] at hhp; cases hhp
  · omega
  · refine ⟨fun hx hie => ?_, fun hx hie => ?_, fun hx hie => ?_, fun hx hie => ?_⟩
    · refine ⟨by simp [hE], ?_, by simp [classifyAsset, hx]⟩
      rw [hE]
      simp [Storage.get_payment, recordSuccessEnv, lookupPayment]
    · exact absurd (hsh.mp hx) hie
    · exact absurd (hsh.mpr hie) hx
    · refine ⟨by simp [hE], ?_, by simp [classifyAsset, hx]⟩
      rw [hE]
      simp [Storage.get_payment, recordSuccessEnv, lookupPayment]

/-- Witness for C3: a token recording with a non-empty issuer stores
`Token(code, issuer)`. -/
theorem record_payment_asset_outcomes_witness :
    (Contract.record_payment ctx0 envInit "inv2" payer0 "USDC" "GISS" 7).1 = .ok () ∧
    Storage.get_payment (Contract.record_payment ctx0 envInit "inv2" payer0
        "USDC" "GISS" 7).2 "inv2" =
      .ok (builtRecord ctx0 "inv2" payer0 "USDC" "GISS" 7) ∧
    classifyAsset "USDC" "GISS" = Asset.Token "USDC" "GISS" :=
  (record_payment_asset_outcomes ctx0 envInit "inv2" payer0 "USDC" "GISS" 7 admin0
      (by decide) (by decide) (by decide) (by decide) (by decide) (by decide)
      (by decide)).2.2.2 (by decide) (by decide)

/-- Counterexample to C3 as stated: at stored counter `2^32 - 1`, a call
that passes every earlier guard with `code = "XLM"` and an empty issuer
does not store a `Native` record — the counter increment overflows and the
call aborts, an outcome outside the claim's four. -/
theorem record_payment_asset_outcomes_cex :
    envCountMax.admin = some admin0 ∧ admin0 ∈ ctx0.auths ∧
    ("inv1" : String).length ≠ 0 ∧ ("XLM" : String).length ≠ 0 ∧ (0 : Int) < 100 ∧
    Storage.has_payment envCountMax "inv1" = false ∧
    ("" : String).length = 0 ∧
    (Contract.record_payment ctx0 envCountMax "inv1" payer0 "XLM" "" 100).1 =
      .error .ArithmeticOverflow ∧
    (Contract.record_payment ctx0 envCountMax "inv1" payer0 "XLM" "" 100).1 ≠
      .ok () := by
  refine ⟨by decide, by decide, by decide, by decide, by decide, by decide, by decide,
    by decide, by decide⟩

end Invoisio

namespace Invoisio

/-- With the stored admin authorized, `record_payment` never fails with an
authorization trap: the only `Unauthorized` exit is the admin's own check. -/
theorem record_payment_no_unauthorized (ctx : Ctx) (e : Env) (i : String) (p : Address)
    (c iss : String) (amt : Int) (a : Address)
    (hA : e.admin = some a) (hauth : a ∈ ctx.auths) :
    ∀ x, (Contract.record_payment ctx e i p c iss amt).1 ≠ .error (.Unauthorized x) := by
  rcases record_payment_cases ctx e i p c iss amt with ⟨hA', hE⟩ | ⟨b, hA', hnb, hE⟩ |
    ⟨b, hA', hin, hi0, hE⟩ | ⟨b, hA', hin, hi1, hc0, hE⟩ |
    ⟨b, hA', hin, hi1, hc1, hsh, hE⟩ | ⟨b, hA', hin, hi1, hc1, hsh, ham, hE⟩ |
    ⟨b, hA', hin, hi1, hc1, hsh, ham, hhp, hE⟩ |
    ⟨b, hA', hin, hi1, hc1, hsh, ham, hhp, hcnt, hE⟩ |
    ⟨b, hA', hin, hi1, hc1, hsh, ham, hhp, hcnt, hE⟩
  · rw [hA] at hA'; cases hA'
  · rw [hA] at hA'; cases hA'; exact absurd hauth hnb
  all_goals intro x; simp [hE]

/-- C7: `set_admin` fails `NotInitialized` when no admin was ever stored;
it requires authorization from the outgoing admin and from the incoming
admin, each alone failing with a trap naming the missing party; on success
it stores the new admin, `admin()` returns the new admin, and the new
admin — not the previous one — is the identity whose authorization
subsequent `record_payment` calls require. -/
theorem set_admin_two_party (ctx : Ctx) (e : Env) (na : Address) :
    (e.admin = none →
      Contract.set_admin ctx e na = (.error (.Contract .NotInitialized), e)) ∧
    (∀ cur, e.admin = some cur → cur ∉ ctx.auths →
      Contract.set_admin ctx e na = (.error (.Unauthorized cur), e)) ∧
    (∀ cur, e.admin = some cur → cur ∈ ctx.auths → na ∉ ctx.auths →
      Contract.set_admin ctx e na = (.error (.Unauthorized na), e)) ∧
    (∀ cur, e.admin = some cur → cur ∈ ctx.auths → na ∈ ctx.auths →
      Contract.set_admin ctx e na = (.ok (), { e with admin := some na }) ∧
      Contract.admin { e with admin := some na } = .ok na ∧
      (∀ ctx' i p c iss amt, na ∉ ctx'.auths →
        (Contract.record_payment ctx' { e with admin := some na } i p c iss amt).1 =
          .error (.Unauthorized na)) ∧
      (∀ ctx' i p c iss amt, na ∈ ctx'.auths → ∀ x,
        (Contract.record_payment ctx' { e with admin := some na } i p c iss amt).1 ≠
          .error (.Unauthorized x))) := by
  rcases set_admin_cases ctx e na with ⟨hA, hE⟩ | ⟨cur, hA, hcur, hE⟩ |
    ⟨cur, hA, hcur, hna, hE⟩ | ⟨cur, hA, hcur, hna, hE⟩
  · refine ⟨fun _ => hE, fun cur hA' => ?_, fun cur hA' => ?_, fun cur hA' => ?_⟩ <;>
      rw [hA] at hA' <;> cases hA'
  · refine ⟨fun hA' => ?_, fun cur' hA' hcur' => ?_, fun cur' hA' hcur' => ?_,
      fun cur' hA' hcur' => ?_⟩ <;> rw [hA] at hA'
    · cases hA'
    · cases hA'; exact hE
    · cases hA'; exact absurd hcur' hcur
    · cases hA'; exact absurd hcur' hcur
  · refine ⟨fun hA' => ?_, fun cur' hA' hcur' => ?_, fun cur' hA' hcur' hna' => ?_,
      fun cur' hA' hcur' hna' => ?_⟩ <;> rw [hA] at hA'
    · cases hA'
    · cases hA'; exact absurd hcur hcur'
    · cases hA'; exact hE
    · cases hA'; exact absurd hna' hna
  · refine ⟨fun hA' => ?_, fun cur' hA' hcur' => ?_, fun cur' hA' hcur' hna' => ?_,
      fun cur' hA' hcur' hna' => ?_⟩ <;> rw [hA] at hA'
    · cases hA'
    · cases hA'; exact absurd hcur hcur'
    · cases hA'; exact absurd hna hna'
    · cases hA'
      refine ⟨hE, by simp [Contract.admin, Storage.get_admin], ?_, ?_⟩
      · intro ctx' i p c iss amt hno
        rcases record_payment_cases ctx' { e with admin := some na } i p c iss amt with
          ⟨hA2, hE2⟩ | ⟨b, hA2, hnb, hE2⟩ | ⟨b, hA2, hmem, _, hE2⟩ |
          ⟨b, hA2, hmem, _, _, hE2⟩ | ⟨b, hA2, hmem, _, _, _, hE2⟩ |
          ⟨b, hA2, hmem, _, _, _, _, hE2⟩ | ⟨b, hA2, hmem, _, _, _, _, _, hE2⟩ |
          ⟨b, hA2, hmem, _, _, _, _, _, _, hE2⟩ | ⟨b, hA2, hmem, _, _, _, _, _, _, hE2⟩
        · simp at hA2
        · simp at hA2; subst hA2; rw [hE2]
        all_goals simp at hA2; subst hA2; exact absurd hmem hno
      · intro ctx' i p c iss amt hyes x
        exact record_payment_no_unauthorized ctx' { e with admin := some na }
          i p c iss amt na rfl hyes x

/-- Witness for C7: transferring from `admin0` to a doubly-authorizing
context succeeds, and the new admin's authorization then gates recording. -/
theorem set_admin_two_party_witness :
    Contract.set_admin ctxBoth envInit "GNEW" =
      (.ok (), { envInit with admin := some "GNEW" }) ∧
    Contract.admin { envInit with admin := some "GNEW" } = .ok "GNEW" ∧
    (Contract.record_payment ctx0 { envInit with admin := some "GNEW" }
        "inv9" payer0 "XLM" "" 5).1 = .error (.Unauthorized "GNEW") := by
  have h := (set_admin_two_party ctxBoth envInit "GNEW").2.2.2 admin0 (by decide)
    (by decide) (by decide)
  exact ⟨h.1, h.2.1, h.2.2.1 ctx0 "inv9" payer0 "XLM" "" 5 (by decide)⟩

end Invoisio

namespace Invoisio

/-- C8: a successful `record_payment` emits exactly one event — tagged with
the fixed payment-recorded topic and carrying the complete stored
`PaymentRecord` — and it is emitted on top of an environment in which the
record write and the counter increment are already committed; a failed call
emits nothing. -/
theorem record_payment_emits_event (ctx : Ctx) (e : Env) (i : String) (p : Address)
    (c iss : String) (amt : Int) :
    ((Contract.record_payment ctx e i p c iss amt).1 = .ok () →
      ∃ e2, e2.events = e.events ∧
        Storage.get_payment e2 i = .ok (builtRecord ctx i p c iss amt) ∧
        Storage.get_count e2 = Storage.get_count e + 1 ∧
        (Contract.record_payment ctx e i p c iss amt).2 =
          Events.emit_payment_recorded e2 (builtRecord ctx i p c iss amt) ∧
        ((Contract.record_payment ctx e i p c iss amt).2).events = e.events ++
          [{ topic := paymentRecordedTopic,
             record := builtRecord ctx i p c iss amt }]) ∧
    (∀ err, (Contract.record_payment ctx e i p c iss amt).1 = .error err →
      ((Contract.record_payment ctx e i p c iss amt).2).events = e.events) := by
  rcases record_payment_cases ctx e i p c iss amt with ⟨_, hE⟩ | ⟨b, _, _, hE⟩ |
    ⟨b, _, _, _, hE⟩ | ⟨b, _, _, _, _, hE⟩ | ⟨b, _, _, _, _, _, hE⟩ |
    ⟨b, _, _, _, _, _, _, hE⟩ | ⟨b, _, _, _, _, _, _, _, hE⟩ |
    ⟨b, _, _, _, _, _, _, _, _, hE⟩ | ⟨b, _, _, _, _, _, _, _, _, hE⟩
  · refine ⟨fun hok => ?_, fun err herr => by rw [hE]⟩
    rw [hE] at hok; cases hok
  · refine ⟨fun hok => ?_, fun err herr => by rw [hE]⟩
    rw [hE] at hok; cases hok
  · refine ⟨fun hok => ?_, fun err herr => by rw [hE]⟩
    rw [hE] at hok; cases hok
  · refine ⟨fun hok => ?_, fun err herr => by rw [hE]⟩
    rw [hE] at hok; cases hok
  · refine ⟨fun hok => ?_, fun err herr => by rw [hE]⟩
    rw [hE] at hok; cases hok
  · refine ⟨fun hok => ?_, fun err herr => by rw [hE]⟩
    rw [hE] at hok; cases hok
  · refine ⟨fun hok => ?_, fun err herr => by rw [hE]⟩
    rw [hE] at hok; cases hok
  · refine ⟨fun hok => ?_, fun err herr => by rw [hE]⟩
    rw [hE] at hok; cases hok
  · refine ⟨fun hok => ?_, fun err herr => by rw [hE] at herr; cases herr⟩
    refine ⟨{ e with
              payments := (i, builtRecord ctx i p c iss amt) :: e.payments,
              paymentCount := some (Storage.get_count e + 1) }, rfl, ?_, ?_, ?_, ?_⟩
    · simp [Storage.get_payment, lookupPayment]
    · simp [Storage.get_count]
    · rw [hE]
      simp [Events.emit_payment_recorded, recordSuccessEnv]
    · rw [hE]
      simp [recordSuccessEnv]

/-- Witness for C8 at a concrete recording: the event log grows by exactly
the one tagged event carrying the stored record. -/
theorem record_payment_emits_event_witness :
    ((Contract.record_payment ctx0 envInit "inv1" payer0 "XLM" "" 100).2).events =
      envInit.events ++
        [{ topic := paymentRecordedTopic,
           record := builtRecord ctx0 "inv1" payer0 "XLM" "" 100 }] := by
  obtain ⟨h1, -⟩ := record_payment_emits_event ctx0 envInit "inv1" payer0 "XLM" "" 100
  obtain ⟨e2, -, -, -, -, hev⟩ := h1 (by decide)
  exact hev

/-- C9: the counter update is a plain `u32` `count + 1`: below the top of
the range a successful call stores exactly `count + 1`, while at stored
counter `2^32 - 1` the addition overflows — the call aborts instead of
producing `2^32`, and the counter never reaches `2^32`. -/
theorem counter_unchecked_boundary (ctx : Ctx) (e : Env) (i : String) (p : Address)
    (c iss : String) (amt : Int) (a : Address)
    (hA : e.admin = some a) (hauth : a ∈ ctx.auths) (hi : i.length ≠ 0)
    (hc : c.length ≠ 0) (hsh : c = "XLM" ↔ iss.length = 0) (hamt : 0 < amt)
    (hfresh : Storage.has_payment e i = false) :
    (Storage.get_count e < u32Bound - 1 →
      (Contract.record_payment ctx e i p c iss amt).1 = .ok () ∧
      Storage.get_count (Contract.record_payment ctx e i p c iss amt).2 =
        Storage.get_count e + 1) ∧
    (Storage.get_count e = u32Bound - 1 →
      (Contract.record_payment ctx e i p c iss amt).1 = .error .ArithmeticOverflow ∧
      (Contract.record_payment ctx e i p c iss amt).2 = e ∧
      Storage.get_count (Contract.record_payment ctx e i p c iss amt).2 ≠ u32Bound) := by
  have hb : u32Bound = 4294967296 := by norm_num [u32Bound]
  rcases record_payment_cases ctx e i p c iss amt with ⟨hA', hE⟩ | ⟨b, hA', hnb, hE⟩ |
    ⟨b, hA', hmem, hi0, hE⟩ | ⟨b, hA', hmem, _, hc0, hE⟩ |
    ⟨b, hA', hmem, _, _, hsh', hE⟩ | ⟨b, hA', hmem, _, _, _, ham, hE⟩ |
    ⟨b, hA', hmem, _, _, _, _, hhp, hE⟩ |
    ⟨b, hA', hmem, _, _, _, _, hhp, hcnt, hE⟩ |
    ⟨b, hA', hmem, _, _, _, _, hhp, hcnt, hE⟩
  · rw [hA] at hA'; cases hA'
  · rw [hA] at hA'; cases hA'; exact absurd hauth hnb
  · exact absurd hi0 hi
  · exact absurd hc0 hc
  · exact absurd hsh hsh'
  · exact absurd hamt (by omega)
  · rw [hfresh] at hhp; cases hhp
  · refine ⟨fun hlow => absurd hlow (by omega),
      fun htop => ⟨by simp [hE], by rw [hE], ?_⟩⟩
    rw [hE]
    exact (by omega : Storage.get_count e ≠ u32Bound)
  · refine ⟨fun hlow => ⟨by simp [hE], ?_⟩, fun htop => absurd htop (by omega)⟩
    rw [hE]
    simp [Storage.get_count, recordSuccessEnv]

/-- Witness for C9: from counter 0 a recording stores 1; from counter
`2^32 - 1` the same otherwise-valid recording aborts with an overflow. -/
theorem counter_unchecked_boundary_witness :
    ((Contract.record_payment ctx0 envInit "inv1" payer0 "XLM" "" 100).1 = .ok () ∧
     Storage.get_count (Contract.record_payment ctx0 envInit "inv1" payer0
        "XLM" "" 100).2 = Storage.get_count envInit + 1) ∧
    ((Contract.record_payment ctx0 envCountMax "inv1" payer0 "XLM" "" 100).1 =
        .error .ArithmeticOverflow ∧
     (Contract.record_payment ctx0 envCountMax "inv1" payer0 "XLM" "" 100).2 =
        envCountMax ∧
     Storage.get_count (Contract.record_payment ctx0 envCountMax "inv1" payer0
        "XLM" "" 100).2 ≠ u32Bound) :=
  ⟨(counter_unchecked_boundary ctx0 envInit "inv1" payer0 "XLM" "" 100 admin0
      (by decide) (by decide) (by decide) (by decide) (by decide) (by decide)
      (by decide)).1 (by decide),
   (counter_unchecked_boundary ctx0 envCountMax "inv1" payer0 "XLM" "" 100 admin0
      (by decide) (by decide) (by decide) (by decide) (by decide) (by decide)
      (by decide)).2 (by decide)⟩

end Invoisio
